import Mathlib

/-!
Verification of the `parallel-daily-insights` Cloudflare worker
(`src/worker.ts`) against its natural-language specification.

The worker's logic is shallowly embedded below.  JavaScript runtime
values reachable from `JSON.parse` are modelled by `JsValue` (numbers as
integers; no float arithmetic is performed by the worker on parsed
values).  Platform primitives that are not code of this repository —
`crypto.subtle`'s HMAC-SHA256, `JSON.parse`, and the two outbound
`fetch` calls — are parameters of the embedded functions, so every
theorem quantifies over their behaviour; everything the worker itself
computes (payload construction, base64url conversion via `btoa` plus
character replacement, header token matching, routing, store writes) is
translated from the source.
-/

/-- JavaScript values as produced by `JSON.parse`, plus `undefined`,
which member access on a missing property yields. -/
inductive JsValue where
  | undef : JsValue
  | jnull : JsValue
  | jbool : Bool → JsValue
  | jnum : Int → JsValue
  | jstr : String → JsValue
  | jarr : List JsValue → JsValue
  | jobj : List (String × JsValue) → JsValue

/-- JavaScript truthiness of a value (`if (v)`): `undefined`, `null`,
`false`, `0` and the empty string are falsy, everything else truthy. -/
def jsTruthy : JsValue → Bool
  | JsValue.undef => false
  | JsValue.jnull => false
  | JsValue.jbool b => b
  | JsValue.jnum n => n != 0
  | JsValue.jstr s => s != ""
  | JsValue.jarr _ => true
  | JsValue.jobj _ => true

/-- JavaScript member access `v.f`.  Returns `none` when the access
throws a `TypeError` (base is `undefined` or `null`); on an object it
yields the property value or `undefined`; on other primitives it yields
`undefined` (none of the property names used by the worker collide with
built-in prototype properties). -/
def jsMember (v : JsValue) (f : String) : Option JsValue :=
  match v with
  | JsValue.undef => none
  | JsValue.jnull => none
  | JsValue.jobj fields =>
      some (((fields.find? (fun p => p.1 == f)).map (fun p => p.2)).getD JsValue.undef)
  | _ => some JsValue.undef

/-- JavaScript optional-chained member access `v?.f`: never throws;
`undefined`/`null` base short-circuits to `undefined`. -/
def jsMemberOpt (v : JsValue) (f : String) : JsValue :=
  match v with
  | JsValue.undef => JsValue.undef
  | JsValue.jnull => JsValue.undef
  | JsValue.jobj fields =>
      ((fields.find? (fun p => p.1 == f)).map (fun p => p.2)).getD JsValue.undef
  | _ => JsValue.undef

/-- JavaScript strict equality `v === s` between a runtime value and a
string literal: true exactly when `v` is that string. -/
def jsStrictEqStr (v : JsValue) (s : String) : Bool :=
  match v with
  | JsValue.jstr s2 => s2 == s
  | _ => false

mutual

/-- JavaScript string coercion as performed by a template literal. -/
def jsToString : JsValue → String
  | JsValue.undef => "undefined"
  | JsValue.jnull => "null"
  | JsValue.jbool b => if b then "true" else "false"
  | JsValue.jnum n => toString n
  | JsValue.jstr s => s
  | JsValue.jarr l => String.intercalate "," (jsToStringList l)
  | JsValue.jobj _ => "[object Object]"

/-- Elementwise string coercion inside `Array.prototype.join`: `null`
and `undefined` elements render as the empty string. -/
def jsToStringList : List JsValue → List String
  | [] => []
  | JsValue.undef :: rest => "" :: jsToStringList rest
  | JsValue.jnull :: rest => "" :: jsToStringList rest
  | v :: rest => jsToString v :: jsToStringList rest

end

/-- Numeric value of a list of decimal digit characters. -/
def digitsVal (cs : List Char) : Nat :=
  cs.foldl (fun a c => a * 10 + (c.toNat - 48)) 0

/-- Model of JavaScript `parseInt(s, 10)`: skip leading whitespace, an
optional sign, then the longest run of decimal digits; `none` models the
`NaN` result when no digits are found. -/
def jsParseInt10 (s : String) : Option Int :=
  match s.toList.dropWhile Char.isWhitespace with
  | '-' :: rest =>
      if (rest.takeWhile Char.isDigit).isEmpty then none
      else some (-(digitsVal (rest.takeWhile Char.isDigit) : Int))
  | '+' :: rest =>
      if (rest.takeWhile Char.isDigit).isEmpty then none
      else some ((digitsVal (rest.takeWhile Char.isDigit) : Int))
  | cs =>
      if (cs.takeWhile Char.isDigit).isEmpty then none
      else some ((digitsVal (cs.takeWhile Char.isDigit) : Int))

/-- Truthiness test the worker applies to each webhook header
(`!webhookId || ...`): a header is rejected when absent (`null`) or the
empty string. -/
def jsFalsyHeader : Option String → Bool
  | none => true
  | some s => s == ""

/-- Splitting a character list on a separator character, with the same
semantics as JavaScript `String.prototype.split` (and Lean's
`String.splitOn`) for a one-character separator: the empty input yields
one empty field. -/
def splitOnCharList (sep : Char) : List Char → List (List Char)
  | [] => [[]]
  | c :: rest =>
      if c == sep then [] :: splitOnCharList sep rest
      else
        match splitOnCharList sep rest with
        | [] => [[c]]
        | g :: gs => (c :: g) :: gs

/-- JavaScript `s.split(sep)` for a one-character separator. -/
def splitOnChar (sep : Char) (s : String) : List String :=
  (splitOnCharList sep s.toList).map String.mk

/-- Model of JavaScript `s.split(sep, 2)` destructured into two slots:
the first field, and the second field when a separator occurs (`split`
with limit 2 truncates, it does not keep the remainder). -/
def jsSplitFirst2 (s : String) (sep : Char) : String × Option String :=
  match splitOnChar sep s with
  | [] => (s, none)
  | [a] => (a, none)
  | a :: b :: _ => (a, some b)

/-- Replacing every occurrence of a character, as the source's global
single-character regex replaces do. -/
def replaceChar (s : String) (a b : Char) : String :=
  String.mk (s.toList.map (fun c => if c == a then b else c))

/-- Deleting every occurrence of a character, as the source's global
replace of `=` with the empty string does. -/
def stripChar (s : String) (a : Char) : String :=
  String.mk (s.toList.filter (fun c => c != a))

/-- The base64 alphabet used by `btoa`. -/
def base64Chars : String :=
  "ABCDEFGHIJKLMNOPQRSTUVWXYZabcdefghijklmnopqrstuvwxyz0123456789+/"

/-- Character of the base64 alphabet at a 6-bit index. -/
def b64Char (n : Nat) : Char :=
  base64Chars.toList.getD n 'A'

/-- Standard padded base64 of a byte sequence, as computed by
`btoa(String.fromCharCode(...bytes))` in the source. -/
def btoa : List Nat → String
  | [] => ""
  | [b1] =>
      String.mk [b64Char (b1 / 4), b64Char (b1 % 4 * 16)] ++ "=="
  | [b1, b2] =>
      String.mk [b64Char (b1 / 4), b64Char (b1 % 4 * 16 + b2 / 16),
        b64Char (b2 % 16 * 4)] ++ "="
  | b1 :: b2 :: b3 :: rest =>
      String.mk [b64Char (b1 / 4), b64Char (b1 % 4 * 16 + b2 / 16),
        b64Char (b2 % 16 * 4 + b3 / 64), b64Char (b3 % 64)] ++ btoa rest

/-- The worker's base64url conversion: `btoa` output with `+` replaced
by `-`, `/` replaced by `_`, and all `=` padding stripped. -/
def toBase64url (bytes : List Nat) : String :=
  stripChar (replaceChar (replaceChar (btoa bytes) '+' '-') '/' '_') '='

/-- `verifyWebhookSignature` from `src/worker.ts`.  `hmacSha256` stands
for the Web Crypto HMAC-SHA256 primitive (secret, message ↦ digest
bytes); everything else — the `id.timestamp.body` payload, the
base64url conversion, the space-separated token loop, the
`split(",", 2)` destructuring and the `v1` match — is the worker's own
code.  Argument order follows the source. -/
def verifyWebhookSignature (hmacSha256 : String → String → List Nat)
    (body secret headerSignature webhookId webhookTimestamp : String) : Bool :=
  let payload := webhookId ++ "." ++ webhookTimestamp ++ "." ++ body
  let base64url := toBase64url (hmacSha256 secret payload)
  (splitOnChar ' ' headerSignature).any (fun sig =>
    (jsSplitFirst2 sig ',').1 == "v1" && (jsSplitFirst2 sig ',').2 == some base64url)

/-- A `TaskDefinition` from the static registry (`tasks.json`, imported
as `TASKS`): slug, display name, description, task spec (carrying the
output schema), input query, and processor tier.  The registry contents
are configuration data, so functions below take the task list as a
parameter. -/
structure TaskDef where
  slug : String
  name : String
  description : String
  task_spec : JsValue
  input : String
  processor : String

/-- A `TaskResult` as persisted by the worker: the task snapshot, the
result payload (`null` for failures), an ISO timestamp, the status
string, and the error field (`undefined` when absent). -/
structure TaskResult where
  task : TaskDef
  result : JsValue
  lastUpdated : String
  status : String
  error : JsValue

/-- Read a key from the KV store model (`TASK_RESULTS.get`). -/
def kvGet (kv : List (String × TaskResult)) (k : String) : Option TaskResult :=
  (kv.find? (fun p => p.1 == k)).map (fun p => p.2)

/-- Write a key in the KV store model (`TASK_RESULTS.put`): an
unconditional overwrite of that key's entry. -/
def kvPut (kv : List (String × TaskResult)) (k : String) (v : TaskResult) :
    List (String × TaskResult) :=
  (k, v) :: kv.filter (fun p => p.1 != k)

/-- The header-presence check at the top of `handleWebhook`:
`!webhookId || !webhookTimestamp || !webhookSignature`. -/
def checkHeadersMissing (webhookId webhookTimestamp webhookSignature : Option String) : Bool :=
  jsFalsyHeader webhookId || jsFalsyHeader webhookTimestamp || jsFalsyHeader webhookSignature

/-- The staleness check of `handleWebhook`:
`Math.abs(now - parseInt(webhookTimestamp, 10)) > 300`.  When `parseInt`
yields `NaN` the comparison is false (every comparison with `NaN` is),
so an unparseable timestamp is NOT rejected. -/
def staleRejected (now : Int) (tsStr : String) : Bool :=
  match jsParseInt10 tsStr with
  | some t => decide ((now - t).natAbs > 300)
  | none => false

/-- The URL of the result fetch for a run identifier value. -/
def resultUrl (runId : JsValue) : String :=
  "https://api.parallel.ai/v1/tasks/runs/" ++ jsToString runId ++ "/result"

/-- The body of `handleWebhook` after the signature has been verified:
parse the body, route `task_run.status` events, fetch and persist
results.  Returns the updated store, or `none` when an uncaught
JavaScript exception would reach the handler's outer `catch` (which
responds 500): `JSON.parse` failing, or member access on
`undefined`/`null`.  `parseJson` stands for the platform `JSON.parse`
(`none` = throws); `fetchRunResult` stands for the result `fetch` by
URL (`none` = network error, non-ok response, or an unreadable body —
all caught by the inner `try`). -/
def processEvent (tasks : List TaskDef) (parseJson : String → Option JsValue)
    (fetchRunResult : String → Option JsValue) (nowISO : String)
    (body : String) (store : List (String × TaskResult)) :
    Option (List (String × TaskResult)) :=
  match parseJson body with
  | none => none
  | some payload =>
    match jsMember payload "type" with
    | none => none
    | some tv =>
      if jsStrictEqStr tv "task_run.status" then
        match jsMember payload "data" with
        | none => none
        | some data =>
          match jsMember data "metadata" with
          | none => none
          | some md =>
            if !jsTruthy (jsMemberOpt md "task_slug") then some store
            else
              match tasks.find? (fun t =>
                  jsStrictEqStr (jsMemberOpt md "task_slug") t.slug) with
              | none => some store
              | some task =>
                match jsMember data "status" with
                | none => none
                | some st =>
                  if jsStrictEqStr st "completed" then
                    match jsMember data "run_id" with
                    | none => none
                    | some runId =>
                      match fetchRunResult (resultUrl runId) with
                      | none => some store
                      | some resultData =>
                        match jsMember resultData "output" with
                        | none => some store
                        | some out =>
                          some (kvPut store (jsToString (jsMemberOpt md "task_slug"))
                            ⟨task,
                              if jsTruthy (jsMemberOpt out "content") then
                                jsMemberOpt out "content"
                              else resultData,
                              nowISO, "completed", JsValue.undef⟩)
                  else if jsStrictEqStr st "failed" then
                    match jsMember data "error" with
                    | none => none
                    | some ev =>
                      some (kvPut store (jsToString (jsMemberOpt md "task_slug"))
                        ⟨task, JsValue.jnull, nowISO, "failed",
                          if jsTruthy (jsMemberOpt ev "message") then
                            jsMemberOpt ev "message"
                          else JsValue.jstr "Task execution failed"⟩)
                  else some store
      else some store

/-- `handleWebhook` from `src/worker.ts`, returning the HTTP status and
the resulting store.  `now` is `Math.floor(Date.now() / 1000)`, `nowISO`
is `new Date().toISOString()`, `secret` is `env.PARALLEL_API_KEY`, and
the three header arguments are `request.headers.get` results (`none` =
absent). -/
def handleWebhook (tasks : List TaskDef) (parseJson : String → Option JsValue)
    (hmacSha256 : String → String → List Nat)
    (fetchRunResult : String → Option JsValue)
    (now : Int) (nowISO : String) (secret : String)
    (webhookId webhookTimestamp webhookSignature : Option String)
    (body : String) (store : List (String × TaskResult)) :
    Nat × List (String × TaskResult) :=
  if checkHeadersMissing webhookId webhookTimestamp webhookSignature then
    (400, store)
  else if staleRejected now (webhookTimestamp.getD "") then
    (400, store)
  else if verifyWebhookSignature hmacSha256 body secret (webhookSignature.getD "")
      (webhookId.getD "") (webhookTimestamp.getD "") then
    match processEvent tasks parseJson fetchRunResult nowISO body store with
    | some store2 => (200, store2)
    | none => (500, store)
  else (401, store)

/-- Outcome of one task submission, as distinguished by the loop body of
`runAllTasks`: an ok response with parsed JSON body, a non-ok response
with its status and body text, or a thrown network error. -/
inductive SubmitOutcome where
  | ok : JsValue → SubmitOutcome
  | httpError : Nat → String → SubmitOutcome
  | netError : SubmitOutcome

/-- The request body one iteration of `runAllTasks` submits to
`https://api.parallel.ai/v1beta/tasks/runs` for one task. -/
structure SubmitRequest where
  task_spec : JsValue
  input : String
  processor : String
  metadata_task_slug : String
  webhook_url : String
  webhook_event_types : List String
  webhook_secret : Option String

/-- Construction of the submission body in `runAllTasks`: the task's
spec, input and processor, metadata embedding the task's slug, and the
webhook block with callback URL, the event-type list, and — via the
conditional spread `...(env.PARALLEL_API_KEY && ...)` — the signing
secret when it is truthy. -/
def buildSubmitRequest (webhookUrl secret : String) (t : TaskDef) : SubmitRequest :=
  ⟨t.task_spec, t.input, t.processor, t.slug, webhookUrl, ["task_run.status"],
    if secret != "" then some secret else none⟩

/-- `runAllTasks` from `src/worker.ts`: the `for` loop over the
registry.  Each iteration's entire body sits inside a `try`/`catch`
that only logs, so every outcome — ok, non-2xx, or a thrown network
error — lets the loop continue; `submit` stands for the platform
`fetch` of one submission.  The function returns the submissions issued
paired with their outcomes, in registry order. -/
def runAllTasks (webhookUrl secret : String) (submit : SubmitRequest → SubmitOutcome) :
    List TaskDef → List (SubmitRequest × SubmitOutcome)
  | [] => []
  | t :: rest =>
      (buildSubmitRequest webhookUrl secret t,
        submit (buildSubmitRequest webhookUrl secret t))
        :: runAllTasks webhookUrl secret submit rest

/-- The `/run` branch of the worker's `fetch` handler, together with
the `PARALLEL_API_KEY` guard that precedes all routing: returns the
HTTP status and whether `runAllTasks` was handed to `ctx.waitUntil`
(the response is produced immediately, without awaiting it).  `secret`
is `env.PARALLEL_API_KEY`; `keyParam` is
`url.searchParams.get("key")` (`none` = absent). -/
def handleRunRoute (secret : String) (keyParam : Option String) : Nat × Bool :=
  if secret == "" then (500, false)
  else if keyParam == some secret then (200, true)
  else (401, false)

/-- One inbound webhook delivery: the three headers, the raw body, the
current time at receipt, the ISO timestamp used for `lastUpdated`, and
the behaviour of the result fetch while this delivery is handled. -/
structure Delivery where
  webhookId : Option String
  webhookTimestamp : Option String
  webhookSignature : Option String
  body : String
  now : Int
  nowISO : String
  fetchRunResult : String → Option JsValue

/-- The store after `handleWebhook` processes one delivery. -/
def stepDelivery (tasks : List TaskDef) (parseJson : String → Option JsValue)
    (hmacSha256 : String → String → List Nat) (secret : String)
    (store : List (String × TaskResult)) (d : Delivery) :
    List (String × TaskResult) :=
  (handleWebhook tasks parseJson hmacSha256 d.fetchRunResult d.now d.nowISO secret
    d.webhookId d.webhookTimestamp d.webhookSignature d.body store).2

/-- The store after a sequence of webhook deliveries is handled in
order, starting from a given store.  The webhook handler is the only
writer of the store, so this is the full evolution of the Result
Store. -/
def runDeliveries (tasks : List TaskDef) (parseJson : String → Option JsValue)
    (hmacSha256 : String → String → List Nat) (secret : String)
    (store : List (String × TaskResult)) (ds : List Delivery) :
    List (String × TaskResult) :=
  ds.foldl (stepDelivery tasks parseJson hmacSha256 secret) store

/-- Formalisation of the SPEC'S WORDS for signature acceptance (claim
C1), for comparison with `verifyWebhookSignature`: some space-separated
token of the header is literally `v1,` followed by the computed
digest. -/
def specClaimedVerify (digest header : String) : Bool :=
  (splitOnChar ' ' header).any (fun t => t == "v1," ++ digest)

/-- The condition under which `processEvent` reaches the outer `catch`
(responding 500) rather than acknowledging with 200: the body fails to
parse as JSON, the parsed value is `null` (so `payload.type` throws),
or a recognized status-change event carries an absent or `null` `data`
field (so `data.metadata` throws). -/
def webhookThrows (parseJson : String → Option JsValue) (body : String) : Bool :=
  match parseJson body with
  | none => true
  | some payload =>
    match jsMember payload "type" with
    | none => true
    | some tv =>
      jsStrictEqStr tv "task_run.status" &&
        (match jsMember payload "data" with
         | none => true
         | some data => (jsMember data "metadata").isNone)

/-- A concrete registry entry used by witnesses. -/
def demoTask : TaskDef :=
  ⟨"daily-news", "Daily News", "Top headline of the day", JsValue.jobj [],
    "What is the top headline today?", "base"⟩

/-- A concrete stand-in for the HMAC-SHA256 primitive used by
witnesses; its digest is `AQID` in base64url. -/
def hmacDemo : String → String → List Nat := fun _ _ => [1, 2, 3]

/-- A concrete parsed status-change event: status `completed`, run
`run1`, slug `daily-news`. -/
def demoPayloadCompleted : JsValue :=
  JsValue.jobj [("type", JsValue.jstr "task_run.status"),
    ("data", JsValue.jobj [("run_id", JsValue.jstr "run1"),
      ("status", JsValue.jstr "completed"),
      ("metadata", JsValue.jobj [("task_slug", JsValue.jstr "daily-news")])])]

/-- A concrete result fetch returning a payload with one `headline`
field. -/
def demoFetchX : String → Option JsValue :=
  fun _ => some (JsValue.jobj [("headline", JsValue.jstr "X")])

example :
    handleWebhook [demoTask] (fun _ => some demoPayloadCompleted) hmacDemo demoFetchX
      100 "2025-08-05T03:00:00Z" "sec" (some "id1") (some "100") (some "v1,AQID")
      "rawbody" [] =
    (200, [("daily-news",
      ⟨demoTask, JsValue.jobj [("headline", JsValue.jstr "X")],
        "2025-08-05T03:00:00Z", "completed", JsValue.undef⟩)]) := by
  rfl

example : btoa [1, 2, 3] = "AQID" := by decide
example : btoa [0, 1, 2] = "AAEC" := by decide
example : btoa [255] = "/w==" := by decide
example : toBase64url [255] = "_w" := by decide
example :
    verifyWebhookSignature (fun _ _ => [1, 2, 3]) "b" "s" "x,y v1,AQID" "i" "t" = true := by
  decide
example :
    verifyWebhookSignature (fun _ _ => [1, 2, 3]) "b" "s" "v2,AQID" "i" "t" = false := by
  decide
example :
    verifyWebhookSignature (fun _ _ => [1, 2, 3]) "b" "s" "v1,AQID,junk" "i" "t" = true := by
  decide

/-! ### Store lemmas -/

/-- Reading back the key just written. -/
theorem kvGet_put_same (kv : List (String × TaskResult)) (k : String) (v : TaskResult) :
    kvGet (kvPut kv k v) k = some v := by
  simp [kvGet, kvPut]

/-- Filtering out one key does not change lookup of a different key. -/
theorem find_filter_ne (kv : List (String × TaskResult)) (k slug : String) (h : slug ≠ k) :
    List.find? (fun p => p.1 == slug) (kv.filter (fun p => p.1 != k)) =
    List.find? (fun p => p.1 == slug) kv := by
  induction kv with
  | nil => rfl
  | cons p rest ih =>
    by_cases hpk : p.1 = k
    · have h2 : ¬(p.1 == slug) = true := by
        simp only [hpk, beq_iff_eq]
        exact Ne.symm h
      have h1 : (p.1 != k) = false := by simp [hpk]
      simp only [List.filter_cons, h1, Bool.false_eq_true, if_false]
      rw [ih, @List.find?_cons_of_neg _ (fun q => q.1 == slug) p rest h2]
    · have h1 : (p.1 != k) = true := by simp [hpk]
      simp only [List.filter_cons, h1, if_true]
      by_cases hps : (p.1 == slug) = true
      · rw [@List.find?_cons_of_pos _ (fun q => q.1 == slug) p _ hps,
          @List.find?_cons_of_pos _ (fun q => q.1 == slug) p rest hps]
      · rw [@List.find?_cons_of_neg _ (fun q => q.1 == slug) p _ hps,
          @List.find?_cons_of_neg _ (fun q => q.1 == slug) p rest hps, ih]

/-- Writing one key does not change the lookup of a different key. -/
theorem kvGet_put_other (kv : List (String × TaskResult)) (k slug : String)
    (v : TaskResult) (h : slug ≠ k) :
    kvGet (kvPut kv k v) slug = kvGet kv slug := by
  simp [kvGet, kvPut, Ne.symm h, find_filter_ne kv k slug h]

/-- `kvPut` keeps the store keys duplicate-free. -/
theorem kvPut_keys_nodup (kv : List (String × TaskResult)) (k : String) (v : TaskResult)
    (h : (kv.map Prod.fst).Nodup) : ((kvPut kv k v).map Prod.fst).Nodup := by
  simp only [kvPut, List.map_cons, List.nodup_cons]
  constructor
  · intro hk
    rcases List.mem_map.mp hk with ⟨p, hp, hpk⟩
    rcases List.mem_filter.mp hp with ⟨_, hne⟩
    simp [hpk] at hne
  · exact h.sublist ((List.filter_sublist kv).map Prod.fst)

/-! ### Claim theorems -/

/-- C1 (counterexample): the signature header `v1,AQID,x` — whose only
space-separated token is NOT of the form `v1,<digest>` because of the
trailing `,x` — nevertheless verifies, since the source's
`split(",", 2)` keeps only the first two comma-separated fields.  The
digest function is a concrete stand-in whose digest is `AQID`; the
discrepancy does not depend on the digest's value. -/
theorem c1_counterexample :
    verifyWebhookSignature hmacDemo "b" "s" "v1,AQID,x" "i" "t" = true ∧
    specClaimedVerify
      (toBase64url (hmacDemo "s" ("i" ++ "." ++ "t" ++ "." ++ "b"))) "v1,AQID,x" = false := by
  decide

/-- C1 (amended): for every digest primitive and all inputs, the
verifier returns true iff some space-separated token of the signature
header has `v1` as its first comma-separated field and the unpadded
URL-safe base64 encoding of the digest of `id.timestamp.body` as its
second comma-separated field (any later fields are ignored). -/
theorem c1_signature_token_match (hmacSha256 : String → String → List Nat)
    (body secret header webhookId webhookTimestamp : String) :
    verifyWebhookSignature hmacSha256 body secret header webhookId webhookTimestamp = true ↔
    ∃ tok ∈ splitOnChar ' ' header,
      (jsSplitFirst2 tok ',').1 = "v1" ∧
      (jsSplitFirst2 tok ',').2 =
        some (toBase64url (hmacSha256 secret
          (webhookId ++ "." ++ webhookTimestamp ++ "." ++ body))) := by
  simp [verifyWebhookSignature, List.any_eq_true]

/-- C8: with a configured (nonempty) secret, a `GET /run` whose `key`
query parameter is not exactly the secret — including an absent key —
is answered 401 and `runAllTasks` is not invoked; an exact match
invokes `runAllTasks` (detached via `ctx.waitUntil`) and is answered
200 immediately. -/
theorem c8_run_route (secret : String) (keyParam : Option String) (hs : secret ≠ "") :
    (keyParam ≠ some secret → handleRunRoute secret keyParam = (401, false)) ∧
    handleRunRoute secret (some secret) = (200, true) := by
  constructor
  · intro hk
    simp [handleRunRoute, hs, hk]
  · simp [handleRunRoute, hs]

/-- C8 (witness): concrete mismatching, absent and matching keys. -/
theorem c8_run_route_witness :
    handleRunRoute "sec" (some "wrong") = (401, false) ∧
    handleRunRoute "sec" none = (401, false) ∧
    handleRunRoute "sec" (some "sec") = (200, true) :=
  ⟨(c8_run_route "sec" (some "wrong") (by decide)).1 (by decide),
   (c8_run_route "sec" none (by decide)).1 (by decide),
   (c8_run_route "sec" (some "sec") (by decide)).2⟩

/-- C9: `runAllTasks` issues exactly one submission per registry task,
in registry order, whatever the per-task outcomes are (so a failed
submission never aborts or skips later tasks, and no task is submitted
twice); each submission embeds the task's slug in its metadata, the
callback URL, the `task_run.status` event type, and — when the secret
is configured — the signing secret. -/
theorem c9_dispatch_all (webhookUrl secret : String)
    (submit : SubmitRequest → SubmitOutcome) (tasks : List TaskDef) :
    (runAllTasks webhookUrl secret submit tasks).map Prod.fst =
      tasks.map (buildSubmitRequest webhookUrl secret) ∧
    ∀ t : TaskDef,
      (buildSubmitRequest webhookUrl secret t).metadata_task_slug = t.slug ∧
      (buildSubmitRequest webhookUrl secret t).webhook_url = webhookUrl ∧
      (buildSubmitRequest webhookUrl secret t).webhook_event_types = ["task_run.status"] ∧
      (secret ≠ "" → (buildSubmitRequest webhookUrl secret t).webhook_secret = some secret) := by
  constructor
  · induction tasks with
    | nil => rfl
    | cons t rest ih => simp [runAllTasks, ih]
  · intro t
    refine ⟨rfl, rfl, rfl, fun hs => ?_⟩
    simp [buildSubmitRequest, hs]

/-- C9 (witness): a one-task registry with an always-failing submitter
still issues the submission, with the slug embedded and the secret
attached. -/
theorem c9_dispatch_all_witness :
    (runAllTasks "https://w.example/webhook" "sec" (fun _ => SubmitOutcome.netError)
      [demoTask]).map Prod.fst =
      [demoTask].map (buildSubmitRequest "https://w.example/webhook" "sec") ∧
    (buildSubmitRequest "https://w.example/webhook" "sec" demoTask).metadata_task_slug =
      "daily-news" ∧
    (buildSubmitRequest "https://w.example/webhook" "sec" demoTask).webhook_secret =
      some "sec" :=
  ⟨(c9_dispatch_all "https://w.example/webhook" "sec" (fun _ => SubmitOutcome.netError)
      [demoTask]).1,
   ((c9_dispatch_all "https://w.example/webhook" "sec" (fun _ => SubmitOutcome.netError)
      [demoTask]).2 demoTask).1,
   ((c9_dispatch_all "https://w.example/webhook" "sec" (fun _ => SubmitOutcome.netError)
      [demoTask]).2 demoTask).2.2.2 (by decide)⟩

/-- C2: the webhook handler's rejection paths.  An absent header ⇒ 400;
present headers but a parsed timestamp more than 300 seconds from the
current time ⇒ 400 (whatever the signature header holds); present and
fresh headers but failing signature verification ⇒ 401.  In all three
cases the returned store is exactly the incoming store: nothing is
written. -/
theorem c2_rejections (tasks : List TaskDef) (parseJson : String → Option JsValue)
    (hmacSha256 : String → String → List Nat) (fetchRunResult : String → Option JsValue)
    (now : Int) (nowISO secret : String)
    (webhookId webhookTimestamp webhookSignature : Option String)
    (body : String) (store : List (String × TaskResult)) :
    (webhookId = none ∨ webhookTimestamp = none ∨ webhookSignature = none →
      handleWebhook tasks parseJson hmacSha256 fetchRunResult now nowISO secret
        webhookId webhookTimestamp webhookSignature body store = (400, store)) ∧
    (∀ t : Int, checkHeadersMissing webhookId webhookTimestamp webhookSignature = false →
      jsParseInt10 (webhookTimestamp.getD "") = some t → (now - t).natAbs > 300 →
      handleWebhook tasks parseJson hmacSha256 fetchRunResult now nowISO secret
        webhookId webhookTimestamp webhookSignature body store = (400, store)) ∧
    (checkHeadersMissing webhookId webhookTimestamp webhookSignature = false →
      staleRejected now (webhookTimestamp.getD "") = false →
      verifyWebhookSignature hmacSha256 body secret (webhookSignature.getD "")
        (webhookId.getD "") (webhookTimestamp.getD "") = false →
      handleWebhook tasks parseJson hmacSha256 fetchRunResult now nowISO secret
        webhookId webhookTimestamp webhookSignature body store = (401, store)) := by
  refine ⟨?_, ?_, ?_⟩
  · intro h
    have hm : checkHeadersMissing webhookId webhookTimestamp webhookSignature = true := by
      rcases h with h | h | h <;> simp [checkHeadersMissing, jsFalsyHeader, h]
    simp [handleWebhook, hm]
  · intro t hh hp hgt
    have hst : staleRejected now (webhookTimestamp.getD "") = true := by
      simp [staleRejected, hp, hgt]
    simp [handleWebhook, hh, hst]
  · intro hh hst hv
    simp [handleWebhook, hh, hst, hv]

/-- C2 (witness): a delivery with no `webhook-id` header gets 400; one
whose timestamp is 900 seconds old gets 400 despite an otherwise valid
signature; one with a fresh timestamp but a non-`v1` signature gets
401 — each leaving the (empty) store empty. -/
theorem c2_rejections_witness :
    handleWebhook [] (fun _ => none) hmacDemo (fun _ => none) 100 "t" "sec"
      none (some "100") (some "v1,AQID") "b" [] = (400, []) ∧
    handleWebhook [] (fun _ => none) hmacDemo (fun _ => none) 1000 "t" "sec"
      (some "id1") (some "100") (some "v1,AQID") "b" [] = (400, []) ∧
    handleWebhook [] (fun _ => none) hmacDemo (fun _ => none) 100 "t" "sec"
      (some "id1") (some "100") (some "v2,AQID") "b" [] = (401, []) :=
  ⟨(c2_rejections [] (fun _ => none) hmacDemo (fun _ => none) 100 "t" "sec"
      none (some "100") (some "v1,AQID") "b" []).1 (Or.inl rfl),
   ((c2_rejections [] (fun _ => none) hmacDemo (fun _ => none) 1000 "t" "sec"
      (some "id1") (some "100") (some "v1,AQID") "b" []).2.1 100 (by decide) (by decide)
      (by decide)),
   ((c2_rejections [] (fun _ => none) hmacDemo (fun _ => none) 100 "t" "sec"
      (some "id1") (some "100") (some "v2,AQID") "b" []).2.2 (by decide) (by decide)
      (by decide))⟩

/-- C10: when all three headers are present but the timestamp header
does not parse as an integer (`parseInt` yields `NaN`), the staleness
comparison `|now − NaN| > 300` is false, so the handler never responds
400: it proceeds to signature verification, answering 401 when that
fails. -/
theorem c10_nan_timestamp (tasks : List TaskDef) (parseJson : String → Option JsValue)
    (hmacSha256 : String → String → List Nat) (fetchRunResult : String → Option JsValue)
    (now : Int) (nowISO secret : String)
    (webhookId webhookTimestamp webhookSignature : Option String)
    (body : String) (store : List (String × TaskResult))
    (hh : checkHeadersMissing webhookId webhookTimestamp webhookSignature = false)
    (hnan : jsParseInt10 (webhookTimestamp.getD "") = none) :
    (handleWebhook tasks parseJson hmacSha256 fetchRunResult now nowISO secret
      webhookId webhookTimestamp webhookSignature body store).1 ≠ 400 ∧
    (verifyWebhookSignature hmacSha256 body secret (webhookSignature.getD "")
        (webhookId.getD "") (webhookTimestamp.getD "") = false →
      handleWebhook tasks parseJson hmacSha256 fetchRunResult now nowISO secret
        webhookId webhookTimestamp webhookSignature body store = (401, store)) := by
  have hst : staleRejected now (webhookTimestamp.getD "") = false := by
    simp [staleRejected, hnan]
  constructor
  · by_cases hv : verifyWebhookSignature hmacSha256 body secret (webhookSignature.getD "")
        (webhookId.getD "") (webhookTimestamp.getD "") = true
    · cases hpe : processEvent tasks parseJson fetchRunResult nowISO body store with
      | none => simp [handleWebhook, hh, hst, hv, hpe]
      | some s2 => simp [handleWebhook, hh, hst, hv, hpe]
    · simp [handleWebhook, hh, hst, hv]
  · intro hv
    simp [handleWebhook, hh, hst, hv]

/-- C10 (witness): timestamp header `abc` with a wrong-version
signature is answered 401, not 400. -/
theorem c10_nan_timestamp_witness :
    handleWebhook [] (fun _ => none) hmacDemo (fun _ => none) 100 "t" "sec"
      (some "id1") (some "abc") (some "v2,AQID") "b" [] = (401, []) :=
  (c10_nan_timestamp [] (fun _ => none) hmacDemo (fun _ => none) 100 "t" "sec"
    (some "id1") (some "abc") (some "v2,AQID") "b" [] (by decide) (by decide)).2 (by decide)

/-- C3: a verified `task_run.status` event with a registered slug and
status `completed`.  When the result fetch succeeds (and its payload is
not `null`), the handler answers 200 and overwrites the slug's entry
with status `completed`, the extracted payload (`output.content` when
truthy, else the whole response) and the current timestamp, with no
error field; reading the slug back yields exactly that record.  When
the result fetch fails, the handler answers 200 and returns the store
untouched. -/
theorem c3_completed_persists (tasks : List TaskDef) (parseJson : String → Option JsValue)
    (hmacSha256 : String → String → List Nat) (fetchRunResult : String → Option JsValue)
    (now : Int) (nowISO secret : String)
    (webhookId webhookTimestamp webhookSignature : Option String)
    (body : String) (store : List (String × TaskResult))
    (payload data md runId : JsValue) (s : String) (task : TaskDef)
    (hh : checkHeadersMissing webhookId webhookTimestamp webhookSignature = false)
    (hst : staleRejected now (webhookTimestamp.getD "") = false)
    (hv : verifyWebhookSignature hmacSha256 body secret (webhookSignature.getD "")
      (webhookId.getD "") (webhookTimestamp.getD "") = true)
    (hp : parseJson body = some payload)
    (hty : jsMember payload "type" = some (JsValue.jstr "task_run.status"))
    (hd : jsMember payload "data" = some data)
    (hmd : jsMember data "metadata" = some md)
    (hslug : jsMemberOpt md "task_slug" = JsValue.jstr s)
    (hs : s ≠ "")
    (hfind : tasks.find? (fun t => jsStrictEqStr (JsValue.jstr s) t.slug) = some task)
    (hstat : jsMember data "status" = some (JsValue.jstr "completed"))
    (hrun : jsMember data "run_id" = some runId) :
    (∀ resultData out : JsValue,
      fetchRunResult (resultUrl runId) = some resultData →
      jsMember resultData "output" = some out →
      handleWebhook tasks parseJson hmacSha256 fetchRunResult now nowISO secret
          webhookId webhookTimestamp webhookSignature body store =
        (200, kvPut store s
          ⟨task,
            if jsTruthy (jsMemberOpt out "content") then jsMemberOpt out "content"
            else resultData,
            nowISO, "completed", JsValue.undef⟩) ∧
      kvGet (handleWebhook tasks parseJson hmacSha256 fetchRunResult now nowISO secret
          webhookId webhookTimestamp webhookSignature body store).2 s =
        some ⟨task,
          if jsTruthy (jsMemberOpt out "content") then jsMemberOpt out "content"
          else resultData,
          nowISO, "completed", JsValue.undef⟩) ∧
    (fetchRunResult (resultUrl runId) = none →
      handleWebhook tasks parseJson hmacSha256 fetchRunResult now nowISO secret
        webhookId webhookTimestamp webhookSignature body store = (200, store)) := by
  have hts : jsTruthy (JsValue.jstr s) = true := by simp [jsTruthy, hs]
  constructor
  · intro resultData out hfetch hout
    have hmain : handleWebhook tasks parseJson hmacSha256 fetchRunResult now nowISO secret
        webhookId webhookTimestamp webhookSignature body store =
        (200, kvPut store s
          ⟨task,
            if jsTruthy (jsMemberOpt out "content") then jsMemberOpt out "content"
            else resultData,
            nowISO, "completed", JsValue.undef⟩) := by
      have h1 : jsStrictEqStr (JsValue.jstr "task_run.status") "task_run.status" = true := by
        decide
      have h2 : jsStrictEqStr (JsValue.jstr "completed") "completed" = true := by decide
      simp only [handleWebhook, hh, hst, hv, Bool.false_eq_true, if_false, if_true,
        processEvent, hp, hty, hd, hmd, hslug, hts, Bool.not_true, hfind, hstat, hrun,
        hfetch, hout, h1, h2, jsToString]
    refine ⟨hmain, ?_⟩
    rw [hmain]
    exact kvGet_put_same store s _
  · intro hfetch
    have h1 : jsStrictEqStr (JsValue.jstr "task_run.status") "task_run.status" = true := by
      decide
    have h2 : jsStrictEqStr (JsValue.jstr "completed") "completed" = true := by decide
    simp only [handleWebhook, hh, hst, hv, Bool.false_eq_true, if_false, if_true,
      processEvent, hp, hty, hd, hmd, hslug, hts, Bool.not_true, hfind, hstat, hrun,
      hfetch, h1, h2]

/-- The `data` object of `demoPayloadCompleted`. -/
def demoData : JsValue :=
  JsValue.jobj [("run_id", JsValue.jstr "run1"),
    ("status", JsValue.jstr "completed"),
    ("metadata", JsValue.jobj [("task_slug", JsValue.jstr "daily-news")])]

/-- The `metadata` object of the demo events. -/
def demoMd : JsValue :=
  JsValue.jobj [("task_slug", JsValue.jstr "daily-news")]

/-- C3 (witness): the spec's concrete scenario.  A verified completed
event for slug `daily-news` whose result fetch returns an object with
`headline` `X` makes `get("daily-news")` yield status `completed`,
result that object, and no error; with a failing fetch the handler
acknowledges 200 and the store stays empty. -/
theorem c3_completed_persists_witness :
    kvGet (handleWebhook [demoTask] (fun _ => some demoPayloadCompleted) hmacDemo demoFetchX
        100 "2025-08-05T03:00:00Z" "sec" (some "id1") (some "100") (some "v1,AQID")
        "rawbody" []).2 "daily-news" =
      some ⟨demoTask, JsValue.jobj [("headline", JsValue.jstr "X")],
        "2025-08-05T03:00:00Z", "completed", JsValue.undef⟩ ∧
    handleWebhook [demoTask] (fun _ => some demoPayloadCompleted) hmacDemo (fun _ => none)
        100 "2025-08-05T03:00:00Z" "sec" (some "id1") (some "100") (some "v1,AQID")
        "rawbody" [] = (200, []) :=
  ⟨(((c3_completed_persists [demoTask] (fun _ => some demoPayloadCompleted) hmacDemo
      demoFetchX 100 "2025-08-05T03:00:00Z" "sec" (some "id1") (some "100")
      (some "v1,AQID") "rawbody" [] demoPayloadCompleted demoData demoMd
      (JsValue.jstr "run1") "daily-news" demoTask (by decide) (by decide) (by decide)
      rfl rfl rfl rfl rfl (by decide) rfl rfl rfl).1
      (JsValue.jobj [("headline", JsValue.jstr "X")]) JsValue.undef rfl rfl).2),
   ((c3_completed_persists [demoTask] (fun _ => some demoPayloadCompleted) hmacDemo
      (fun _ => none) 100 "2025-08-05T03:00:00Z" "sec" (some "id1") (some "100")
      (some "v1,AQID") "rawbody" [] demoPayloadCompleted demoData demoMd
      (JsValue.jstr "run1") "daily-news" demoTask (by decide) (by decide) (by decide)
      rfl rfl rfl rfl rfl (by decide) rfl rfl rfl).2 rfl)⟩

/-- C4: a verified `task_run.status` event with a registered slug,
status `failed`, and a truthy reported error message.  The handler
answers 200 and overwrites the slug's entry with status `failed`, a
`null` result payload, the reported error message and the current
timestamp; reading the slug back yields exactly that record. -/
theorem c4_failed_persists (tasks : List TaskDef) (parseJson : String → Option JsValue)
    (hmacSha256 : String → String → List Nat) (fetchRunResult : String → Option JsValue)
    (now : Int) (nowISO secret : String)
    (webhookId webhookTimestamp webhookSignature : Option String)
    (body : String) (store : List (String × TaskResult))
    (payload data md ev : JsValue) (s m : String) (task : TaskDef)
    (hh : checkHeadersMissing webhookId webhookTimestamp webhookSignature = false)
    (hst : staleRejected now (webhookTimestamp.getD "") = false)
    (hv : verifyWebhookSignature hmacSha256 body secret (webhookSignature.getD "")
      (webhookId.getD "") (webhookTimestamp.getD "") = true)
    (hp : parseJson body = some payload)
    (hty : jsMember payload "type" = some (JsValue.jstr "task_run.status"))
    (hd : jsMember payload "data" = some data)
    (hmd : jsMember data "metadata" = some md)
    (hslug : jsMemberOpt md "task_slug" = JsValue.jstr s)
    (hs : s ≠ "")
    (hfind : tasks.find? (fun t => jsStrictEqStr (JsValue.jstr s) t.slug) = some task)
    (hstat : jsMember data "status" = some (JsValue.jstr "failed"))
    (herr : jsMember data "error" = some ev)
    (hmsg : jsMemberOpt ev "message" = JsValue.jstr m)
    (hm : m ≠ "") :
    handleWebhook tasks parseJson hmacSha256 fetchRunResult now nowISO secret
        webhookId webhookTimestamp webhookSignature body store =
      (200, kvPut store s ⟨task, JsValue.jnull, nowISO, "failed", JsValue.jstr m⟩) ∧
    kvGet (handleWebhook tasks parseJson hmacSha256 fetchRunResult now nowISO secret
        webhookId webhookTimestamp webhookSignature body store).2 s =
      some ⟨task, JsValue.jnull, nowISO, "failed", JsValue.jstr m⟩ := by
  have hts : jsTruthy (JsValue.jstr s) = true := by simp [jsTruthy, hs]
  have htm : jsTruthy (JsValue.jstr m) = true := by simp [jsTruthy, hm]
  have h1 : jsStrictEqStr (JsValue.jstr "task_run.status") "task_run.status" = true := by
    decide
  have hcf : jsStrictEqStr (JsValue.jstr "failed") "completed" = false := by decide
  have hff : jsStrictEqStr (JsValue.jstr "failed") "failed" = true := by decide
  have hmain : handleWebhook tasks parseJson hmacSha256 fetchRunResult now nowISO secret
      webhookId webhookTimestamp webhookSignature body store =
      (200, kvPut store s ⟨task, JsValue.jnull, nowISO, "failed", JsValue.jstr m⟩) := by
    simp only [handleWebhook, hh, hst, hv, Bool.false_eq_true, if_false, if_true,
      processEvent, hp, hty, hd, hmd, hslug, hts, Bool.not_true, hfind, hstat, herr,
      hmsg, htm, h1, hcf, hff, jsToString]
  refine ⟨hmain, ?_⟩
  rw [hmain]
  exact kvGet_put_same store s _

/-- A concrete parsed status-change event: status `failed` with error
message `timeout`, run `run2`, slug `daily-news`. -/
def demoPayloadFailed : JsValue :=
  JsValue.jobj [("type", JsValue.jstr "task_run.status"),
    ("data", JsValue.jobj [("run_id", JsValue.jstr "run2"),
      ("status", JsValue.jstr "failed"),
      ("metadata", JsValue.jobj [("task_slug", JsValue.jstr "daily-news")]),
      ("error", JsValue.jobj [("message", JsValue.jstr "timeout")])])]

/-- The `data` object of `demoPayloadFailed`. -/
def demoDataFailed : JsValue :=
  JsValue.jobj [("run_id", JsValue.jstr "run2"),
    ("status", JsValue.jstr "failed"),
    ("metadata", JsValue.jobj [("task_slug", JsValue.jstr "daily-news")]),
    ("error", JsValue.jobj [("message", JsValue.jstr "timeout")])]

/-- C4 (witness): the spec's concrete scenario — a verified failed
event with `data.error.message` `timeout` stores status `failed`,
`null` result and error `timeout` under `daily-news`. -/
theorem c4_failed_persists_witness :
    kvGet (handleWebhook [demoTask] (fun _ => some demoPayloadFailed) hmacDemo
        (fun _ => none) 100 "2025-08-05T03:00:00Z" "sec" (some "id1") (some "100")
        (some "v1,AQID") "rawbody" []).2 "daily-news" =
      some ⟨demoTask, JsValue.jnull, "2025-08-05T03:00:00Z", "failed",
        JsValue.jstr "timeout"⟩ :=
  (c4_failed_persists [demoTask] (fun _ => some demoPayloadFailed) hmacDemo
    (fun _ => none) 100 "2025-08-05T03:00:00Z" "sec" (some "id1") (some "100")
    (some "v1,AQID") "rawbody" [] demoPayloadFailed demoDataFailed demoMd
    (JsValue.jobj [("message", JsValue.jstr "timeout")]) "daily-news" "timeout" demoTask
    (by decide) (by decide) (by decide) rfl rfl rfl rfl rfl (by decide) rfl rfl rfl rfl
    (by decide)).2

/-- C6: a verified event whose type is not `task_run.status` — and a
verified status-change event whose metadata slug is falsy (absent) or
matches no registered task — is acknowledged with 200 and the store is
returned unchanged. -/
theorem c6_unroutable_acknowledged (tasks : List TaskDef)
    (parseJson : String → Option JsValue) (hmacSha256 : String → String → List Nat)
    (fetchRunResult : String → Option JsValue) (now : Int) (nowISO secret : String)
    (webhookId webhookTimestamp webhookSignature : Option String)
    (body : String) (store : List (String × TaskResult)) (payload : JsValue)
    (hh : checkHeadersMissing webhookId webhookTimestamp webhookSignature = false)
    (hst : staleRejected now (webhookTimestamp.getD "") = false)
    (hv : verifyWebhookSignature hmacSha256 body secret (webhookSignature.getD "")
      (webhookId.getD "") (webhookTimestamp.getD "") = true)
    (hp : parseJson body = some payload) :
    (∀ tv : JsValue, jsMember payload "type" = some tv →
      jsStrictEqStr tv "task_run.status" = false →
      handleWebhook tasks parseJson hmacSha256 fetchRunResult now nowISO secret
        webhookId webhookTimestamp webhookSignature body store = (200, store)) ∧
    (∀ data md : JsValue,
      jsMember payload "type" = some (JsValue.jstr "task_run.status") →
      jsMember payload "data" = some data →
      jsMember data "metadata" = some md →
      (jsTruthy (jsMemberOpt md "task_slug") = false ∨
        tasks.find? (fun t => jsStrictEqStr (jsMemberOpt md "task_slug") t.slug) = none) →
      handleWebhook tasks parseJson hmacSha256 fetchRunResult now nowISO secret
        webhookId webhookTimestamp webhookSignature body store = (200, store)) := by
  have h1 : jsStrictEqStr (JsValue.jstr "task_run.status") "task_run.status" = true := by
    decide
  constructor
  · intro tv hty hne
    simp only [handleWebhook, hh, hst, hv, Bool.false_eq_true, if_false, if_true,
      processEvent, hp, hty, hne]
  · intro data md hty hd hmd hun
    rcases hun with htr | hfind
    · simp only [handleWebhook, hh, hst, hv, Bool.false_eq_true, if_false, if_true,
        processEvent, hp, hty, hd, hmd, h1, htr, Bool.not_false]
    · by_cases htr : jsTruthy (jsMemberOpt md "task_slug") = true
      · simp only [handleWebhook, hh, hst, hv, Bool.false_eq_true, if_false, if_true,
          processEvent, hp, hty, hd, hmd, h1, htr, Bool.not_true, hfind]
      · rw [Bool.not_eq_true] at htr
        simp only [handleWebhook, hh, hst, hv, Bool.false_eq_true, if_false, if_true,
          processEvent, hp, hty, hd, hmd, h1, htr, Bool.not_false]

/-- A concrete verified event of an unrecognized type. -/
def demoPayloadOtherType : JsValue :=
  JsValue.jobj [("type", JsValue.jstr "task_run.progress")]

/-- A concrete verified status-change event whose metadata lacks a
`task_slug`. -/
def demoPayloadNoSlug : JsValue :=
  JsValue.jobj [("type", JsValue.jstr "task_run.status"),
    ("data", JsValue.jobj [("run_id", JsValue.jstr "run3"),
      ("status", JsValue.jstr "completed"),
      ("metadata", JsValue.jobj [])])]

/-- A concrete verified status-change event carrying a slug no
registered task has. -/
def demoPayloadUnknownSlug : JsValue :=
  JsValue.jobj [("type", JsValue.jstr "task_run.status"),
    ("data", JsValue.jobj [("run_id", JsValue.jstr "run4"),
      ("status", JsValue.jstr "completed"),
      ("metadata", JsValue.jobj [("task_slug", JsValue.jstr "no-such-task")])])]

/-- C6 (witness): an unrecognized event type, a missing slug, and an
unknown slug are each acknowledged 200 with the store unchanged. -/
theorem c6_unroutable_acknowledged_witness :
    handleWebhook [demoTask] (fun _ => some demoPayloadOtherType) hmacDemo (fun _ => none)
      100 "t" "sec" (some "id1") (some "100") (some "v1,AQID") "rawbody" [] =
      (200, []) ∧
    handleWebhook [demoTask] (fun _ => some demoPayloadNoSlug) hmacDemo (fun _ => none)
      100 "t" "sec" (some "id1") (some "100") (some "v1,AQID") "rawbody" [] =
      (200, []) ∧
    handleWebhook [demoTask] (fun _ => some demoPayloadUnknownSlug) hmacDemo
      (fun _ => none) 100 "t" "sec" (some "id1") (some "100") (some "v1,AQID")
      "rawbody" [] = (200, []) :=
  ⟨((c6_unroutable_acknowledged [demoTask] (fun _ => some demoPayloadOtherType) hmacDemo
      (fun _ => none) 100 "t" "sec" (some "id1") (some "100") (some "v1,AQID")
      "rawbody" [] demoPayloadOtherType (by decide) (by decide) (by decide) rfl).1
      (JsValue.jstr "task_run.progress") rfl (by decide)),
   ((c6_unroutable_acknowledged [demoTask] (fun _ => some demoPayloadNoSlug) hmacDemo
      (fun _ => none) 100 "t" "sec" (some "id1") (some "100") (some "v1,AQID")
      "rawbody" [] demoPayloadNoSlug (by decide) (by decide) (by decide) rfl).2
      (JsValue.jobj [("run_id", JsValue.jstr "run3"),
        ("status", JsValue.jstr "completed"), ("metadata", JsValue.jobj [])])
      (JsValue.jobj []) rfl rfl rfl (Or.inl (by decide))),
   ((c6_unroutable_acknowledged [demoTask] (fun _ => some demoPayloadUnknownSlug) hmacDemo
      (fun _ => none) 100 "t" "sec" (some "id1") (some "100") (some "v1,AQID")
      "rawbody" [] demoPayloadUnknownSlug (by decide) (by decide) (by decide) rfl).2
      (JsValue.jobj [("run_id", JsValue.jstr "run4"),
        ("status", JsValue.jstr "completed"),
        ("metadata", JsValue.jobj [("task_slug", JsValue.jstr "no-such-task")])])
      (JsValue.jobj [("task_slug", JsValue.jstr "no-such-task")]) rfl rfl rfl
      (Or.inr rfl))⟩

/-- Whether member access on a value throws depends only on the value,
not the accessed name: if one access succeeds, any access does. -/
theorem jsMember_some_any {v : JsValue} {f : String} {x : JsValue}
    (h : jsMember v f = some x) (g : String) : ∃ y, jsMember v g = some y := by
  cases v <;> simp [jsMember] at h ⊢

/-- `processEvent` reaches the outer `catch` exactly under
`webhookThrows`: an unparseable body, a `null` parsed value, or a
status-change event whose `data` is absent or `null`. -/
theorem processEvent_isNone_eq (tasks : List TaskDef) (parseJson : String → Option JsValue)
    (fetchRunResult : String → Option JsValue) (nowISO body : String)
    (store : List (String × TaskResult)) :
    (processEvent tasks parseJson fetchRunResult nowISO body store).isNone =
    webhookThrows parseJson body := by
  cases hp : parseJson body with
  | none => simp [processEvent, webhookThrows, hp]
  | some payload =>
    cases hty : jsMember payload "type" with
    | none => simp [processEvent, webhookThrows, hp, hty]
    | some tv =>
      by_cases hm : jsStrictEqStr tv "task_run.status" = true
      · cases hd : jsMember payload "data" with
        | none => simp [processEvent, webhookThrows, hp, hty, hd, hm]
        | some data =>
          cases hmd : jsMember data "metadata" with
          | none => simp [processEvent, webhookThrows, hp, hty, hd, hmd, hm]
          | some md =>
            obtain ⟨st, hstt⟩ := jsMember_some_any hmd "status"
            obtain ⟨ri, hri⟩ := jsMember_some_any hmd "run_id"
            obtain ⟨ev, hev⟩ := jsMember_some_any hmd "error"
            by_cases htr : jsTruthy (jsMemberOpt md "task_slug") = true
            · cases hfind : tasks.find? (fun t =>
                  jsStrictEqStr (jsMemberOpt md "task_slug") t.slug) with
              | none =>
                simp [processEvent, webhookThrows, hp, hty, hd, hmd, hm, htr, hfind]
              | some task =>
                by_cases hc : jsStrictEqStr st "completed" = true
                · cases hfetch : fetchRunResult (resultUrl ri) with
                  | none =>
                    simp [processEvent, webhookThrows, hp, hty, hd, hmd, hm, htr, hfind,
                      hstt, hri, hc, hfetch]
                  | some resultData =>
                    cases hout : jsMember resultData "output" with
                    | none =>
                      simp [processEvent, webhookThrows, hp, hty, hd, hmd, hm, htr,
                        hfind, hstt, hri, hc, hfetch, hout]
                    | some out =>
                      simp [processEvent, webhookThrows, hp, hty, hd, hmd, hm, htr,
                        hfind, hstt, hri, hc, hfetch, hout]
                · by_cases hf2 : jsStrictEqStr st "failed" = true
                  · simp [processEvent, webhookThrows, hp, hty, hd, hmd, hm, htr, hfind,
                      hstt, hev, hc, hf2]
                  · simp [processEvent, webhookThrows, hp, hty, hd, hmd, hm, htr, hfind,
                      hstt, hc, hf2]
            · rw [Bool.not_eq_true] at htr
              simp [processEvent, webhookThrows, hp, hty, hd, hmd, hm, htr]
      · rw [Bool.not_eq_true] at hm
        simp [processEvent, webhookThrows, hp, hty, hm]

/-- C5 (counterexample): a POST whose headers are present, whose
timestamp is fresh, and whose signature verifies over the raw body
`notjson` — but whose body is not valid JSON, so `JSON.parse` throws —
is answered 500 by the outer `catch`, not 200.  The conjuncts record
that each of the three checks passes at this input. -/
theorem c5_counterexample :
    checkHeadersMissing (some "id1") (some "100") (some "v1,AQID") = false ∧
    staleRejected 100 "100" = false ∧
    verifyWebhookSignature hmacDemo "notjson" "sec" "v1,AQID" "id1" "100" = true ∧
    handleWebhook [] (fun _ => none) hmacDemo (fun _ => none) 100 "t" "sec"
      (some "id1") (some "100") (some "v1,AQID") "notjson" [] = (500, []) :=
  ⟨by decide, by decide, by decide, rfl⟩

/-- C5 (amended): a POST that passes the header-presence, freshness and
signature checks is answered 200 — including unroutable and
unrecognized events — unless handling the body throws (the body is not
valid JSON, parses to `null`, or is a status-change event whose `data`
is absent or `null`), in which case the outer `catch` answers 500. -/
theorem c5_verified_ack (tasks : List TaskDef) (parseJson : String → Option JsValue)
    (hmacSha256 : String → String → List Nat) (fetchRunResult : String → Option JsValue)
    (now : Int) (nowISO secret : String)
    (webhookId webhookTimestamp webhookSignature : Option String)
    (body : String) (store : List (String × TaskResult))
    (hh : checkHeadersMissing webhookId webhookTimestamp webhookSignature = false)
    (hst : staleRejected now (webhookTimestamp.getD "") = false)
    (hv : verifyWebhookSignature hmacSha256 body secret (webhookSignature.getD "")
      (webhookId.getD "") (webhookTimestamp.getD "") = true) :
    (handleWebhook tasks parseJson hmacSha256 fetchRunResult now nowISO secret
      webhookId webhookTimestamp webhookSignature body store).1 =
    if webhookThrows parseJson body then 500 else 200 := by
  have key := processEvent_isNone_eq tasks parseJson fetchRunResult nowISO body store
  cases hpe : processEvent tasks parseJson fetchRunResult nowISO body store with
  | none =>
    rw [hpe] at key
    simp only [Option.isNone_none] at key
    simp [handleWebhook, hh, hst, hv, hpe, key.symm]
  | some store2 =>
    rw [hpe] at key
    simp only [Option.isNone_some] at key
    simp [handleWebhook, hh, hst, hv, hpe, key.symm]

/-- C5 (witness): a verified delivery whose body parses to a plain
string — an unroutable event — is acknowledged with 200. -/
theorem c5_verified_ack_witness :
    (handleWebhook [] (fun _ => some (JsValue.jstr "hello")) hmacDemo (fun _ => none)
      100 "t" "sec" (some "id1") (some "100") (some "v1,AQID") "rawbody" []).1 =
    if webhookThrows (fun _ => some (JsValue.jstr "hello")) "rawbody" then 500 else 200 :=
  c5_verified_ack [] (fun _ => some (JsValue.jstr "hello")) hmacDemo (fun _ => none)
    100 "t" "sec" (some "id1") (some "100") (some "v1,AQID") "rawbody" []
    (by decide) (by decide) (by decide)

/-- Every store `processEvent` can return is either the incoming store
(no routable write) or the incoming store with exactly one key
overwritten. -/
theorem processEvent_shape (tasks : List TaskDef) (parseJson : String → Option JsValue)
    (fetchRunResult : String → Option JsValue) (nowISO body : String)
    (store : List (String × TaskResult)) :
    ∀ r, processEvent tasks parseJson fetchRunResult nowISO body store = some r →
      r = store ∨ ∃ k v, r = kvPut store k v := by
  intro r h
  unfold processEvent at h
  repeat' split at h
  all_goals
    first
      | (injection h with h; exact Or.inl h.symm)
      | (injection h with h; exact Or.inr ⟨_, _, h.symm⟩)
      | injection h

/-- One webhook delivery either leaves the store unchanged or
overwrites exactly one key. -/
theorem stepDelivery_shape (tasks : List TaskDef) (parseJson : String → Option JsValue)
    (hmacSha256 : String → String → List Nat) (secret : String)
    (store : List (String × TaskResult)) (d : Delivery) :
    stepDelivery tasks parseJson hmacSha256 secret store d = store ∨
    ∃ k v, stepDelivery tasks parseJson hmacSha256 secret store d = kvPut store k v := by
  unfold stepDelivery handleWebhook
  split
  · exact Or.inl rfl
  · split
    · exact Or.inl rfl
    · split
      · split
        · next store2 hpe =>
            exact processEvent_shape tasks parseJson d.fetchRunResult d.nowISO d.body
              store store2 hpe
        · exact Or.inl rfl
      · exact Or.inl rfl

/-- Handling deliveries preserves duplicate-freedom of the store's
keys. -/
theorem runDeliveries_nodup (tasks : List TaskDef) (parseJson : String → Option JsValue)
    (hmacSha256 : String → String → List Nat) (secret : String) (ds : List Delivery) :
    ∀ store : List (String × TaskResult), (store.map Prod.fst).Nodup →
      ((runDeliveries tasks parseJson hmacSha256 secret store ds).map Prod.fst).Nodup := by
  induction ds with
  | nil => intro store h; simpa [runDeliveries] using h
  | cons d rest ih =>
    intro store h
    have h2 : ((stepDelivery tasks parseJson hmacSha256 secret store d).map
        Prod.fst).Nodup := by
      rcases stepDelivery_shape tasks parseJson hmacSha256 secret store d with
        he | ⟨k, v, he⟩
      · rw [he]; exact h
      · rw [he]; exact kvPut_keys_nodup store k v h
    simpa [runDeliveries, List.foldl_cons] using
      ih (stepDelivery tasks parseJson hmacSha256 secret store d) h2

/-- If a slug's entry appears after a sequence of deliveries but was
absent before, some delivery of the sequence wrote that slug. -/
theorem runDeliveries_source (tasks : List TaskDef) (parseJson : String → Option JsValue)
    (hmacSha256 : String → String → List Nat) (secret slug : String) (ds : List Delivery) :
    ∀ store : List (String × TaskResult), kvGet store slug = none →
      ∀ r, kvGet (runDeliveries tasks parseJson hmacSha256 secret store ds) slug = some r →
        ∃ d ∈ ds, ∃ st v,
          stepDelivery tasks parseJson hmacSha256 secret st d = kvPut st slug v := by
  induction ds with
  | nil => intro store h0 r hr; simp [runDeliveries, h0] at hr
  | cons d rest ih =>
    intro store h0 r hr
    simp only [runDeliveries, List.foldl_cons] at hr
    rcases stepDelivery_shape tasks parseJson hmacSha256 secret store d with
      he | ⟨k, v, he⟩
    · rw [he] at hr
      obtain ⟨d2, hd2, hwrite⟩ := ih store h0 r hr
      exact ⟨d2, List.mem_cons_of_mem d hd2, hwrite⟩
    · by_cases hk : k = slug
      · subst hk
        exact ⟨d, List.mem_cons_self d rest, store, v, he⟩
      · have h0' : kvGet (kvPut store k v) slug = none := by
          rw [kvGet_put_other store k slug v (fun hh => hk hh.symm)]
          exact h0
        rw [he] at hr
        obtain ⟨d2, hd2, hwrite⟩ := ih (kvPut store k v) h0' r hr
        exact ⟨d2, List.mem_cons_of_mem d hd2, hwrite⟩

/-- C7: Result Store invariants over any sequence of webhook
deliveries.  (1) The store keeps at most one entry per slug: starting
from duplicate-free keys, the keys stay duplicate-free.  (2) Two
sequential deliveries that each persist a completion for the same slug
leave exactly the later result readable (last-write-wins).  (3) Since
the webhook handler is the only writer, a slug readable after the
deliveries but absent before was written by one of them — a delivery
that routed a persisting callback to that slug. -/
theorem c7_store_invariants (tasks : List TaskDef) (parseJson : String → Option JsValue)
    (hmacSha256 : String → String → List Nat) (secret : String)
    (store : List (String × TaskResult)) (ds : List Delivery) (slug : String) :
    ((store.map Prod.fst).Nodup →
      ((runDeliveries tasks parseJson hmacSha256 secret store ds).map Prod.fst).Nodup) ∧
    (∀ (d1 d2 : Delivery) (r1 r2 : TaskResult),
      stepDelivery tasks parseJson hmacSha256 secret store d1 = kvPut store slug r1 →
      stepDelivery tasks parseJson hmacSha256 secret (kvPut store slug r1) d2 =
        kvPut (kvPut store slug r1) slug r2 →
      kvGet (runDeliveries tasks parseJson hmacSha256 secret store [d1, d2]) slug =
        some r2) ∧
    (kvGet store slug = none →
      ∀ r, kvGet (runDeliveries tasks parseJson hmacSha256 secret store ds) slug = some r →
        ∃ d ∈ ds, ∃ st v,
          stepDelivery tasks parseJson hmacSha256 secret st d = kvPut st slug v) := by
  refine ⟨fun h => runDeliveries_nodup tasks parseJson hmacSha256 secret ds store h,
    ?_, fun h0 r hr =>
      runDeliveries_source tasks parseJson hmacSha256 secret slug ds store h0 r hr⟩
  intro d1 d2 r1 r2 h1 h2
  simp only [runDeliveries, List.foldl_cons, List.foldl_nil]
  rw [h1, h2]
  exact kvGet_put_same _ slug r2

/-- The first demo delivery: a verified completed callback whose
result fetch returns headline `X`. -/
def demoDelivery1 : Delivery :=
  ⟨some "id1", some "100", some "v1,AQID", "rawbody", 100, "2025-08-05T03:00:00Z",
    demoFetchX⟩

/-- A result fetch returning headline `Y`. -/
def demoFetchY : String → Option JsValue :=
  fun _ => some (JsValue.jobj [("headline", JsValue.jstr "Y")])

/-- The second demo delivery: a later verified completed callback for
the same slug whose result fetch returns headline `Y`. -/
def demoDelivery2 : Delivery :=
  ⟨some "id2", some "100", some "v1,AQID", "rawbody", 100, "2025-08-06T03:00:00Z",
    demoFetchY⟩

/-- C7 (witness): after two sequential completed callbacks for
`daily-news` (first `X`, then `Y`) on an initially empty store, the
keys are duplicate-free, `get("daily-news")` returns only the later
result `Y`, and the entry is traceable to a delivery that wrote it. -/
theorem c7_store_invariants_witness :
    ((runDeliveries [demoTask] (fun _ => some demoPayloadCompleted) hmacDemo "sec" []
      [demoDelivery1, demoDelivery2]).map Prod.fst).Nodup ∧
    kvGet (runDeliveries [demoTask] (fun _ => some demoPayloadCompleted) hmacDemo "sec" []
        [demoDelivery1, demoDelivery2]) "daily-news" =
      some ⟨demoTask, JsValue.jobj [("headline", JsValue.jstr "Y")],
        "2025-08-06T03:00:00Z", "completed", JsValue.undef⟩ ∧
    ∃ d ∈ [demoDelivery1, demoDelivery2], ∃ st v,
      stepDelivery [demoTask] (fun _ => some demoPayloadCompleted) hmacDemo "sec" st d =
        kvPut st "daily-news" v := by
  have hb := (c7_store_invariants [demoTask] (fun _ => some demoPayloadCompleted) hmacDemo
    "sec" [] [demoDelivery1, demoDelivery2] "daily-news").2.1 demoDelivery1 demoDelivery2
    ⟨demoTask, JsValue.jobj [("headline", JsValue.jstr "X")], "2025-08-05T03:00:00Z",
      "completed", JsValue.undef⟩
    ⟨demoTask, JsValue.jobj [("headline", JsValue.jstr "Y")], "2025-08-06T03:00:00Z",
      "completed", JsValue.undef⟩ rfl rfl
  refine ⟨(c7_store_invariants [demoTask] (fun _ => some demoPayloadCompleted) hmacDemo
    "sec" [] [demoDelivery1, demoDelivery2] "daily-news").1 (by simp), hb,
    (c7_store_invariants [demoTask] (fun _ => some demoPayloadCompleted) hmacDemo
    "sec" [] [demoDelivery1, demoDelivery2] "daily-news").2.2 rfl _ hb⟩
